import Mathlib

/-!
Formal model of the SMTP sending core of `src/email-worker.ts`
(`sendEmail`, lines 33-310).

The network is modelled by a `World`: the list of reply chunks the relay
produces (one per `reader.read()` call), the outcomes of the three
awaited connection events (probe open, session open, TLS open), the
clock values observed by `new Date().toUTCString()` and `Date.now()`,
and flags saying whether the three teardown operations fail.  Every
observable interaction with the network is recorded in an `Event` trace.

`sendEmail` returns the result record of the source function together
with the trace of its run.
-/

namespace EmailWorker

/-- SMTP response codes (source lines 4-8). -/
def SMTP_READY : String := "220"

/-- Source line 5. -/
def SMTP_OK : String := "250"

/-- Source line 6. -/
def SMTP_AUTH_SUCCESS : String := "235"

/-- Source line 7. -/
def SMTP_START_INPUT : String := "354"

/-- Source line 8. -/
def SMTP_AUTH_CONTINUE : String := "334"

/-- `EmailConfig` (source lines 11-20).  The optional `from` object is
flattened into its two optional fields; a missing string field is `none`. -/
structure EmailConfig where
  /-- The `to` field of the source interface (`to` is reserved in Lean). -/
  toAddr : String
  subject : String
  body : String
  isHtml : Option Bool := none
  fromEmail : Option String := none
  fromName : Option String := none
deriving Repr, DecidableEq

/-- `SMTPConfig` (source lines 23-30).  `AUTH_CODE` and `TO_EMAIL` are
never read by `sendEmail` and are omitted. -/
structure SMTPConfig where
  SMTP_HOST : Option String := none
  SMTP_PORT : Option String := none
  SMTP_USERNAME : Option String := none
  SMTP_PASSWORD : String
deriving Repr, DecidableEq

/-- One observable network interaction of `sendEmail`. -/
inductive Event where
  /-- A `connect({hostname, port})` call (source lines 62-65 and 80-86).
  The port is the `parseInt` result, `none` when it is NaN. -/
  | connectOpen (host : String) (port : Option Nat)
  /-- `testSocket.close()` on the reachability probe (source line 72). -/
  | closeProbe
  /-- Bytes written on the plaintext socket (source line 112). -/
  | plainWrite (data : String)
  /-- A chunk read from the plaintext socket (source line 100). -/
  | plainRead (chunk : String)
  /-- `socket.startTls()` (source line 151). -/
  | tlsStart
  /-- Bytes written on the TLS socket (source line 174). -/
  | secureWrite (data : String)
  /-- A chunk read from the TLS socket (source line 163). -/
  | secureRead (chunk : String)
  /-- `secureWriter.close()` attempt (source line 279). -/
  | secureWriterClose
  /-- `secureReader.cancel()` attempt (source line 285). -/
  | secureReaderCancel
  /-- `secureSocket.close()` attempt (source line 291). -/
  | secureClose
deriving Repr, DecidableEq

/-- The environment a single `sendEmail` run interacts with. -/
structure World where
  /-- `some msg` when awaiting `testSocket.opened` rejects with `msg`. -/
  probeErr : Option String := none
  /-- `some msg` when awaiting `socket.opened` rejects with `msg`. -/
  sessionErr : Option String := none
  /-- `some msg` when awaiting `secureSocket.opened` rejects with `msg`. -/
  tlsErr : Option String := none
  /-- Successive chunks produced by `reader.read()` / `secureReader.read()`;
  a read past the end yields no value. -/
  replies : List String
  /-- Value of `Date.now()` at composition time. -/
  now : Nat
  /-- Value of `new Date().toUTCString()` at composition time. -/
  dateStr : String
  /-- Whether `secureWriter.close()` fails; the failure is swallowed by the
  source's empty `catch` (lines 278-282), so it influences nothing. -/
  writerCloseFails : Bool := false
  /-- Whether `secureReader.cancel()` fails; swallowed (lines 284-288). -/
  readerCancelFails : Bool := false
  /-- Whether `secureSocket.close()` fails; swallowed (lines 290-294). -/
  socketCloseFails : Bool := false
deriving Repr, DecidableEq

/-- The result record of `sendEmail` (source line 33). -/
structure SendResult where
  success : Bool
  message : Option String := none
  error : Option String := none
deriving Repr, DecidableEq

/-- JavaScript `a || b` for an optional string: both `undefined` and the
empty string are falsy. -/
def strOr (o : Option String) (d : String) : String :=
  match o with
  | none => d
  | some s => if s = "" then d else s

/-- The JavaScript whitespace characters relevant to SMTP replies (the
ASCII part of the `trim` set; the source never meets the Unicode part). -/
def isWsJS (c : Char) : Bool :=
  c = ' ' || c = '\t' || c = '\n' || c = '\r' || c = '\x0b' || c = '\x0c'

/-- JavaScript `String.prototype.trim`: strip leading and trailing
whitespace.  Defined structurally on the character list so that it
evaluates inside the kernel. -/
def jsTrim (s : String) : String :=
  String.mk (((s.data.dropWhile isWsJS).reverse.dropWhile isWsJS).reverse)

/-- JavaScript `String.prototype.startsWith`, structurally. -/
def jsStartsWith (s p : String) : Bool :=
  p.data.isPrefixOf s.data

/-- JavaScript `parseInt` restricted to the shapes that occur here: the
leading decimal-digit run of the trimmed string, `none` for NaN. -/
def parseIntJS (s : String) : Option Nat :=
  match (jsTrim s).data.takeWhile Char.isDigit with
  | [] => none
  | ds => some (ds.foldl (fun a c => 10 * a + (c.toNat - 48)) 0)

/-- The base64 alphabet used by `btoa`. -/
def base64Alphabet : List Char :=
  "ABCDEFGHIJKLMNOPQRSTUVWXYZabcdefghijklmnopqrstuvwxyz0123456789+/".toList

/-- Digit of the base64 alphabet. -/
def b64char (n : Nat) : Char := base64Alphabet.getD n 'A'

/-- Base64-encode a list of byte values, with `=` padding. -/
def btoaChunks : List Nat → String
  | [] => ""
  | [a] =>
      String.mk [b64char (a / 4), b64char (a % 4 * 16)] ++ "=="
  | [a, b] =>
      String.mk [b64char (a / 4), b64char (a % 4 * 16 + b / 16),
        b64char (b % 16 * 4)] ++ "="
  | a :: b :: c :: rest =>
      String.mk [b64char (a / 4), b64char (a % 4 * 16 + b / 16),
        b64char (b % 16 * 4 + c / 64), b64char (c % 64)] ++ btoaChunks rest

/-- JavaScript `btoa` on a string of code points below 256 (the only use
here is ASCII credentials): base64 of the code-unit values. -/
def btoa (s : String) : String := btoaChunks (s.toList.map Char.toNat)

/-- The header list built at source lines 239-255: six fixed headers, then
the Content-Type/Content-Transfer-Encoding pair selected by `IS_HTML`. -/
def composeHeaders (FROM_NAME FROM_EMAIL TO_EMAIL SUBJECT dateStr : String)
    (now : Nat) (SMTP_HOST : String) (IS_HTML : Bool) : List String :=
  [ "From: " ++ FROM_NAME ++ " <" ++ FROM_EMAIL ++ ">",
    "To: " ++ TO_EMAIL,
    "Subject: " ++ SUBJECT,
    "Date: " ++ dateStr,
    "Message-ID: <" ++ toString now ++ "@" ++ SMTP_HOST ++ ">",
    "MIME-Version: 1.0" ] ++
  (if IS_HTML then
    ["Content-Type: text/html; charset=UTF-8",
     "Content-Transfer-Encoding: 8bit"]
   else
    ["Content-Type: text/plain; charset=UTF-8",
     "Content-Transfer-Encoding: 8bit"])

/-- The single DATA payload (source lines 258-263): headers, a blank line,
the body, and a line consisting solely of `.`, joined with CRLF. -/
def composeMessage (FROM_NAME FROM_EMAIL TO_EMAIL SUBJECT dateStr : String)
    (now : Nat) (SMTP_HOST : String) (IS_HTML : Bool) (EMAIL_BODY : String) :
    String :=
  String.intercalate "\r\n"
    (composeHeaders FROM_NAME FROM_EMAIL TO_EMAIL SUBJECT dateStr now
      SMTP_HOST IS_HTML ++ ["", EMAIL_BODY, "."])

/-- Connection state threaded through a run: remaining relay replies and
the trace of events so far. -/
structure Conn where
  replies : List String
  trace : List Event
deriving Repr, DecidableEq

/-- The effect monad of a run: state `Conn`, thrown `Error` messages as
`String`.  `EStateM` keeps the state on `throw`, exactly as the source's
`try/catch` does. -/
abbrev SmtpM := EStateM String Conn

/-- Record one network event. -/
def emit (e : Event) : SmtpM Unit :=
  modify fun c => { c with trace := c.trace ++ [e] }

/-- `readResponse` (source lines 99-107): one `reader.read()`, failing
when no value arrives, otherwise decoding and trimming the chunk. -/
def readResponse : SmtpM String := do
  let c ← get
  match c.replies with
  | [] => throw "No response from server"
  | r :: rest =>
      set ({ replies := rest, trace := c.trace ++ [Event.plainRead r] } : Conn)
      pure (jsTrim r)

/-- `sendCommand` (source lines 110-113): write `command + CRLF`. -/
def sendCommand (command : String) : SmtpM Unit :=
  emit (Event.plainWrite (command ++ "\r\n"))

/-- `readSecureResponse` (source lines 162-170). -/
def readSecureResponse : SmtpM String := do
  let c ← get
  match c.replies with
  | [] => throw "No secure response from server"
  | r :: rest =>
      set ({ replies := rest, trace := c.trace ++ [Event.secureRead r] } : Conn)
      pure (jsTrim r)

/-- `sendSecureCommand` (source lines 172-175). -/
def sendSecureCommand (command : String) : SmtpM Unit :=
  emit (Event.secureWrite (command ++ "\r\n"))

/-- The reply-validation pattern repeated after every read in the source:
`if (!response.startsWith(code)) throw new Error(failMsg)`. -/
def check (ok : Bool) (failMsg : String) : SmtpM Unit :=
  if ok then pure () else throw failMsg

/-- Await a connection `opened` promise: rejecting with `msg` raises it as
an `Error`, resolving does nothing. -/
def awaitOpened (outcome : Option String) : SmtpM Unit :=
  match outcome with
  | some msg => throw msg
  | none => pure ()

/-- The reachability probe (source lines 61-76): await `testSocket.opened`,
then close the probe socket; a rejection is rewrapped as
`SMTP server unreachable`. -/
def probeCheck (outcome : Option String) : SmtpM Unit :=
  match outcome with
  | some msg => throw ("SMTP server unreachable: " ++ msg)
  | none => emit Event.closeProbe

/-- The post-upgrade part of the session (source lines 177-301): second
EHLO, AUTH LOGIN exchange, MAIL FROM, RCPT TO, DATA, payload, QUIT and
teardown, all on the secure transport.  Returns the success message. -/
def securePhase (SMTP_HOST SMTP_USERNAME SMTP_PASSWORD FROM_EMAIL FROM_NAME
    TO_EMAIL SUBJECT : String) (IS_HTML : Bool) (EMAIL_BODY : String)
    (w : World) : SmtpM String := do
  sendSecureCommand ("EHLO " ++ SMTP_HOST)
  let response ← readSecureResponse
  check (jsStartsWith response SMTP_OK) ("Secure EHLO failed: " ++ response)
  sendSecureCommand "AUTH LOGIN"
  let response ← readSecureResponse
  check (jsStartsWith response SMTP_AUTH_CONTINUE) ("AUTH LOGIN failed: " ++ response)
  sendSecureCommand (btoa SMTP_USERNAME)
  let response ← readSecureResponse
  check (jsStartsWith response SMTP_AUTH_CONTINUE)
    ("Username authentication failed: " ++ response)
  sendSecureCommand (btoa SMTP_PASSWORD)
  let response ← readSecureResponse
  check (jsStartsWith response SMTP_AUTH_SUCCESS)
    ("Password authentication failed: " ++ response)
  sendSecureCommand ("MAIL FROM:<" ++ FROM_EMAIL ++ ">")
  let response ← readSecureResponse
  check (jsStartsWith response SMTP_OK) ("MAIL FROM failed: " ++ response)
  sendSecureCommand ("RCPT TO:<" ++ TO_EMAIL ++ ">")
  let response ← readSecureResponse
  check (jsStartsWith response SMTP_OK) ("RCPT TO failed: " ++ response)
  sendSecureCommand "DATA"
  let response ← readSecureResponse
  check (jsStartsWith response SMTP_START_INPUT) ("DATA command failed: " ++ response)
  sendSecureCommand (composeMessage FROM_NAME FROM_EMAIL TO_EMAIL SUBJECT
    w.dateStr w.now SMTP_HOST IS_HTML EMAIL_BODY)
  let response ← readSecureResponse
  check (jsStartsWith response SMTP_OK) ("Email sending failed: " ++ response)
  sendSecureCommand "QUIT"
  let _ ← readSecureResponse
  emit Event.secureWriterClose
  emit Event.secureReaderCancel
  emit Event.secureClose
  pure ("Email sent successfully to " ++ TO_EMAIL)

/-- The body of the `try` block of `sendEmail` (source lines 34-301),
step for step.  Returns the success message; throws the source's `Error`
messages. -/
def sendEmailBody (emailConfig : EmailConfig) (env : SMTPConfig)
    (w : World) : SmtpM String := do
  let SMTP_HOST := strOr env.SMTP_HOST "smtp.office365.com"
  let SMTP_PORT := parseIntJS (strOr env.SMTP_PORT "587")
  let SMTP_USERNAME := env.SMTP_USERNAME.getD ""
  let FROM_EMAIL := strOr emailConfig.fromEmail SMTP_USERNAME
  let FROM_NAME := strOr emailConfig.fromName "Notification"
  let TO_EMAIL := emailConfig.toAddr
  let SUBJECT := emailConfig.subject
  let EMAIL_BODY := emailConfig.body
  let IS_HTML := emailConfig.isHtml.getD false
  let SMTP_PASSWORD := env.SMTP_PASSWORD
  check (!(SMTP_PASSWORD = "")) "SMTP_PASSWORD environment variable is not set"
  check (!(SMTP_USERNAME = "")) "SMTP_USERNAME environment variable is not set"
  check (!(TO_EMAIL = "" || SUBJECT = "" || EMAIL_BODY = ""))
    "Missing required email parameters: to, subject, and body are required"
  emit (Event.connectOpen SMTP_HOST SMTP_PORT)
  probeCheck w.probeErr
  emit (Event.connectOpen SMTP_HOST SMTP_PORT)
  awaitOpened w.sessionErr
  let response ← readResponse
  check (jsStartsWith response SMTP_READY) ("SMTP server not ready: " ++ response)
  sendCommand ("EHLO " ++ SMTP_HOST)
  let response ← readResponse
  check (jsStartsWith response SMTP_OK) ("EHLO failed: " ++ response)
  sendCommand "STARTTLS"
  let response ← readResponse
  check (jsStartsWith response SMTP_READY) ("STARTTLS failed: " ++ response)
  emit Event.tlsStart
  awaitOpened w.tlsErr
  securePhase SMTP_HOST SMTP_USERNAME SMTP_PASSWORD FROM_EMAIL FROM_NAME
    TO_EMAIL SUBJECT IS_HTML EMAIL_BODY w

/-- `sendEmail` (source lines 33-310): run the body, and shape the result
as the source's `try/catch` does (lines 298-309).  Also returns the event
trace of the run. -/
def sendEmail (emailConfig : EmailConfig) (env : SMTPConfig) (w : World) :
    SendResult × List Event :=
  match (sendEmailBody emailConfig env w).run { replies := w.replies, trace := [] } with
  | .ok msg c =>
      ({ success := true, message := some msg, error := none }, c.trace)
  | .error e c =>
      ({ success := false, message := none,
         error := some (if e = "" then "Unknown error occurred" else e) },
       c.trace)

/-! Reduction lemmas for running the session monad. -/

@[simp] theorem run_bind {α β : Type} (x : SmtpM α) (f : α → SmtpM β) (c : Conn) :
    (x >>= f).run c =
      match x.run c with
      | .ok a c' => (f a).run c'
      | .error e c' => .error e c' := by
  show EStateM.bind x f c = _
  unfold EStateM.bind EStateM.run
  cases x c <;> rfl

@[simp] theorem run_pure {α : Type} (a : α) (c : Conn) :
    (pure a : SmtpM α).run c = .ok a c := rfl

@[simp] theorem run_throw {α : Type} (e : String) (c : Conn) :
    (throw e : SmtpM α).run c = .error e c := rfl

@[simp] theorem run_emit (ev : Event) (c : Conn) :
    (emit ev).run c = .ok () { c with trace := c.trace ++ [ev] } := rfl

@[simp] theorem run_check (b : Bool) (msg : String) (c : Conn) :
    (check b msg).run c = if b then .ok () c else .error msg c := by
  cases b <;> rfl

@[simp] theorem run_probeCheck (o : Option String) (c : Conn) :
    (probeCheck o).run c =
      match o with
      | some m => .error ("SMTP server unreachable: " ++ m) c
      | none => .ok () { c with trace := c.trace ++ [Event.closeProbe] } := by
  cases o <;> rfl

@[simp] theorem run_awaitOpened (o : Option String) (c : Conn) :
    (awaitOpened o).run c =
      match o with
      | some m => .error m c
      | none => .ok () c := by
  cases o <;> rfl

@[simp] theorem run_readResponse (c : Conn) :
    readResponse.run c =
      match c.replies with
      | [] => .error "No response from server" c
      | r :: rest =>
          .ok (jsTrim r) { replies := rest, trace := c.trace ++ [Event.plainRead r] } := by
  cases c with
  | mk rs tr => cases rs <;> rfl

@[simp] theorem run_readSecureResponse (c : Conn) :
    readSecureResponse.run c =
      match c.replies with
      | [] => .error "No secure response from server" c
      | r :: rest =>
          .ok (jsTrim r) { replies := rest, trace := c.trace ++ [Event.secureRead r] } := by
  cases c with
  | mk rs tr => cases rs <;> rfl

@[simp] theorem run_sendCommand (s : String) (c : Conn) :
    (sendCommand s).run c =
      .ok () { c with trace := c.trace ++ [Event.plainWrite (s ++ "\r\n")] } := rfl

@[simp] theorem run_sendSecureCommand (s : String) (c : Conn) :
    (sendSecureCommand s).run c =
      .ok () { c with trace := c.trace ++ [Event.secureWrite (s ++ "\r\n")] } := rfl

/-! Trace discipline after the TLS upgrade. -/

/-- True when the event is neither a read from nor a write to the
plaintext transport. -/
def notPlainEvent : Event → Bool
  | .plainWrite _ => false
  | .plainRead _ => false
  | _ => true

/-- From the first `tlsStart` of the trace on, no plaintext read or write
occurs. -/
def noPlainAfterTls : List Event → Bool
  | [] => true
  | .tlsStart :: es => es.all notPlainEvent
  | _ :: es => noPlainAfterTls es

/-- The final connection state of a run, whether it succeeded or threw. -/
def resConn {α : Type} : EStateM.Result String Conn α → Conn
  | .ok _ c => c
  | .error _ c => c

/-- The computation only ever appends events satisfying `P` to the trace,
on success and on failure alike. -/
def AppendsOnly {α : Type} (m : SmtpM α) (P : Event → Bool) : Prop :=
  ∀ c : Conn, ∃ Δ : List Event,
    Δ.all P = true ∧ (resConn (m.run c)).trace = c.trace ++ Δ

theorem appendsOnly_pure {α : Type} (a : α) (P : Event → Bool) :
    AppendsOnly (pure a : SmtpM α) P :=
  fun c => ⟨[], rfl, by simp [resConn]⟩

theorem appendsOnly_throw {α : Type} (e : String) (P : Event → Bool) :
    AppendsOnly (throw e : SmtpM α) P :=
  fun c => ⟨[], rfl, by simp [resConn]⟩

theorem appendsOnly_emit (ev : Event) (P : Event → Bool) (h : P ev = true) :
    AppendsOnly (emit ev) P :=
  fun c => ⟨[ev], by simp [h], by simp [resConn]⟩

theorem appendsOnly_check (b : Bool) (msg : String) (P : Event → Bool) :
    AppendsOnly (check b msg) P :=
  fun c => ⟨[], rfl, by cases b <;> simp [resConn]⟩

theorem appendsOnly_awaitOpened (o : Option String) (P : Event → Bool) :
    AppendsOnly (awaitOpened o) P :=
  fun c => ⟨[], rfl, by cases o <;> simp [resConn]⟩

theorem appendsOnly_readSecureResponse (P : Event → Bool)
    (h : ∀ r, P (Event.secureRead r) = true) :
    AppendsOnly readSecureResponse P := by
  intro c
  cases hr : c.replies with
  | nil => exact ⟨[], rfl, by simp [resConn, hr]⟩
  | cons r rest => exact ⟨[Event.secureRead r], by simp [h], by simp [resConn, hr]⟩

theorem appendsOnly_sendSecureCommand (s : String) (P : Event → Bool)
    (h : ∀ d, P (Event.secureWrite d) = true) :
    AppendsOnly (sendSecureCommand s) P :=
  fun c => ⟨[Event.secureWrite (s ++ "\r\n")], by simp [h], by simp [resConn]⟩

theorem appendsOnly_bind {α β : Type} {x : SmtpM α} {f : α → SmtpM β}
    {P : Event → Bool} (hx : AppendsOnly x P)
    (hf : ∀ a, AppendsOnly (f a) P) :
    AppendsOnly (x >>= f) P := by
  intro c
  obtain ⟨Δ₁, hΔ₁, htr₁⟩ := hx c
  rw [run_bind]
  cases hres : x.run c with
  | ok a c' =>
      obtain ⟨Δ₂, hΔ₂, htr₂⟩ := hf a c'
      refine ⟨Δ₁ ++ Δ₂, ?_, ?_⟩
      · simp_all
      · rw [htr₂]
        have : c'.trace = c.trace ++ Δ₁ := by rw [← htr₁, hres]; rfl
        rw [this, List.append_assoc]
  | error e c' =>
      refine ⟨Δ₁, hΔ₁, ?_⟩
      rw [← htr₁, hres]
      rfl

/-- The post-upgrade phase never touches the plaintext transport. -/
theorem appendsOnly_securePhase (h₁ h₂ h₃ h₄ h₅ h₆ h₇ : String) (b : Bool)
    (s : String) (w : World) :
    AppendsOnly (securePhase h₁ h₂ h₃ h₄ h₅ h₆ h₇ b s w) notPlainEvent := by
  unfold securePhase
  repeat
    first
    | exact appendsOnly_sendSecureCommand _ _ (fun d => rfl)
    | exact appendsOnly_readSecureResponse _ (fun r => rfl)
    | exact appendsOnly_check _ _ _
    | exact appendsOnly_emit _ _ rfl
    | exact appendsOnly_pure _ _
    | apply appendsOnly_bind
    | intro a


@[simp] theorem sendEmail_trace (cfg : EmailConfig) (env : SMTPConfig) (w : World) :
    (sendEmail cfg env w).2 =
      (resConn ((sendEmailBody cfg env w).run { replies := w.replies, trace := [] })).trace := by
  unfold sendEmail
  split <;> rename_i h <;> simp [resConn, h]

/-- True unless the event is the TLS upgrade itself. -/
def notTlsEvent : Event → Bool
  | .tlsStart => false
  | _ => true

theorem noPlainAfterTls_mid (xs Δ : List Event) (hxs : xs.all notTlsEvent = true)
    (hΔ : Δ.all notPlainEvent = true) :
    noPlainAfterTls (xs ++ Event.tlsStart :: Δ) = true := by
  induction xs with
  | nil => simpa [noPlainAfterTls] using hΔ
  | cons e es ih => cases e <;> simp_all [noPlainAfterTls, notTlsEvent]

theorem finalLeaf {α : Type} {m : SmtpM α} (hm : AppendsOnly m notPlainEvent) (c : Conn)
    (hlast : c.trace.getLast? = some Event.tlsStart)
    (hxs : c.trace.dropLast.all notTlsEvent = true) :
    noPlainAfterTls ((resConn (m.run c)).trace) = true := by
  obtain ⟨Δ, hall, htr⟩ := hm c
  rw [htr]
  have hne : c.trace ≠ [] := by intro h; rw [h] at hlast; simp at hlast
  have hget : c.trace.getLast hne = Event.tlsStart := by
    rw [List.getLast?_eq_getLast _ hne] at hlast
    exact Option.some_injective _ hlast
  have hdecomp : c.trace = c.trace.dropLast ++ [Event.tlsStart] := by
    conv_lhs => rw [← List.dropLast_append_getLast hne, hget]
  rw [hdecomp, List.append_assoc]
  exact noPlainAfterTls_mid _ _ hxs (by simpa using hall)

theorem noPlain_all (cfg : EmailConfig) (env : SMTPConfig) (w : World) :
    noPlainAfterTls (sendEmail cfg env w).2 = true := by
  rw [sendEmail_trace]
  unfold sendEmailBody
  by_cases h1 : env.SMTP_PASSWORD = ""
  · simp [*, resConn, noPlainAfterTls]
  by_cases h2 : env.SMTP_USERNAME.getD "" = ""
  · simp [*, resConn, noPlainAfterTls]
  by_cases h3 : cfg.toAddr = ""
  · simp [*, resConn, noPlainAfterTls]
  by_cases h4 : cfg.subject = ""
  · simp [*, resConn, noPlainAfterTls]
  by_cases h5 : cfg.body = ""
  · simp [*, resConn, noPlainAfterTls]
  cases hpe : w.probeErr with
  | some m => simp [*, resConn, noPlainAfterTls, notPlainEvent]
  | none =>
  cases hse : w.sessionErr with
  | some m => simp [*, resConn, noPlainAfterTls, notPlainEvent]
  | none =>
  cases hre : w.replies with
  | nil => simp [*, resConn, noPlainAfterTls, notPlainEvent]
  | cons r1 rest1 =>
  cases hb1 : jsStartsWith (jsTrim r1) SMTP_READY with
  | false => simp [*, resConn, noPlainAfterTls, notPlainEvent]
  | true =>
  cases hre1 : rest1 with
  | nil => simp [*, resConn, noPlainAfterTls, notPlainEvent]
  | cons r2 rest2 =>
  cases hb2 : jsStartsWith (jsTrim r2) SMTP_OK with
  | false => simp [*, resConn, noPlainAfterTls, notPlainEvent]
  | true =>
  cases hre2 : rest2 with
  | nil => simp [*, resConn, noPlainAfterTls, notPlainEvent]
  | cons r3 rest3 =>
  cases hb3 : jsStartsWith (jsTrim r3) SMTP_READY with
  | false => simp [*, resConn, noPlainAfterTls, notPlainEvent]
  | true =>
  cases hte : w.tlsErr with
  | some m => simp [*, resConn, noPlainAfterTls, notPlainEvent]
  | none =>
  simp [*]
  exact finalLeaf (appendsOnly_securePhase _ _ _ _ _ _ _ _ _ _) _ (by simp)
    (by simp [notTlsEvent])


/-- Fixture message used by concrete witnesses. -/
def cfgA : EmailConfig :=
  { toAddr := "a@b.com", subject := "S", body := "B" }

/-- Fixture environment used by concrete witnesses. -/
def envA : SMTPConfig :=
  { SMTP_HOST := some "mail.example.com"
    SMTP_PORT := some "2525"
    SMTP_USERNAME := some "alice@example.com"
    SMTP_PASSWORD := "hunter2" }

/-- Fixture world: a relay that accepts every step. -/
def wA : World :=
  { replies := ["220 go", "250 ok", "220 tls", "250 ok2", "334 u", "334 p",
      "235 yes", "250 mf", "250 rt", "354 data", "250 sent", "221 bye"]
    now := 1700000000000
    dateStr := "Thu, 01 Jan 2026 00:00:00 GMT" }

/-- C1: for a message with non-empty to, subject and body, a fully resolved
transport (username and password present), and a relay whose twelve replies
lead with 220, 250, 220, 250, 334, 334, 235, 250, 250, 354, 250 and anything
for QUIT, `sendEmail` returns success=true with a message string that
contains the recipient address. -/
theorem claim_C1
    (cfg : EmailConfig) (env : SMTPConfig) (w : World) (u : String)
    (hu : env.SMTP_USERNAME = some u) (hu2 : u ≠ "")
    (hp : env.SMTP_PASSWORD ≠ "")
    (hto : cfg.toAddr ≠ "") (hs : cfg.subject ≠ "") (hb : cfg.body ≠ "")
    (hpe : w.probeErr = none) (hse : w.sessionErr = none) (hte : w.tlsErr = none)
    (r1 r2 r3 r4 r5 r6 r7 r8 r9 r10 r11 r12 : String)
    (hr : w.replies = [r1, r2, r3, r4, r5, r6, r7, r8, r9, r10, r11, r12])
    (h1 : jsStartsWith (jsTrim r1) "220" = true)
    (h2 : jsStartsWith (jsTrim r2) "250" = true)
    (h3 : jsStartsWith (jsTrim r3) "220" = true)
    (h4 : jsStartsWith (jsTrim r4) "250" = true)
    (h5 : jsStartsWith (jsTrim r5) "334" = true)
    (h6 : jsStartsWith (jsTrim r6) "334" = true)
    (h7 : jsStartsWith (jsTrim r7) "235" = true)
    (h8 : jsStartsWith (jsTrim r8) "250" = true)
    (h9 : jsStartsWith (jsTrim r9) "250" = true)
    (h10 : jsStartsWith (jsTrim r10) "354" = true)
    (h11 : jsStartsWith (jsTrim r11) "250" = true) :
    (sendEmail cfg env w).1 =
      { success := true
        message := some ("Email sent successfully to " ++ cfg.toAddr)
        error := none } ∧
    ∃ pre : String, (sendEmail cfg env w).1.message = some (pre ++ cfg.toAddr) := by
  have hres : (sendEmail cfg env w).1 =
      { success := true
        message := some ("Email sent successfully to " ++ cfg.toAddr)
        error := none } := by
    unfold sendEmail
    simp [sendEmailBody, securePhase, hu, hu2, hp, hto, hs, hb, hpe, hse, hte, hr,
      h1, h2, h3, h4, h5, h6, h7, h8, h9, h10, h11, SMTP_READY, SMTP_OK,
      SMTP_AUTH_SUCCESS, SMTP_START_INPUT, SMTP_AUTH_CONTINUE]
  exact ⟨hres, "Email sent successfully to ", by rw [hres]⟩

/-- Closed instance of the C1 theorem at the concrete fixtures. -/
theorem claim_C1_witness :
    (sendEmail cfgA envA wA).1 =
      { success := true
        message := some ("Email sent successfully to " ++ cfgA.toAddr)
        error := none } ∧
    ∃ pre : String, (sendEmail cfgA envA wA).1.message = some (pre ++ cfgA.toAddr) :=
  claim_C1 cfgA envA wA "alice@example.com" (by decide) (by decide) (by decide)
    (by decide) (by decide) (by decide) (by decide) (by decide) (by decide)
    "220 go" "250 ok" "220 tls" "250 ok2" "334 u" "334 p" "235 yes" "250 mf"
    "250 rt" "354 data" "250 sent" "221 bye"
    (by decide) (by decide) (by decide) (by decide) (by decide) (by decide)
    (by decide) (by decide) (by decide) (by decide) (by decide) (by decide)

/-- C10: every result satisfies the shape invariant: success=true comes with
a message and no error, success=false with an error and no message; the two
optional fields are never both present. -/
theorem claim_C10 (cfg : EmailConfig) (env : SMTPConfig) (w : World) :
    ((sendEmail cfg env w).1.success = true ∧
      ((sendEmail cfg env w).1.message).isSome = true ∧
      (sendEmail cfg env w).1.error = none) ∨
    ((sendEmail cfg env w).1.success = false ∧
      (sendEmail cfg env w).1.message = none ∧
      ((sendEmail cfg env w).1.error).isSome = true) := by
  unfold sendEmail
  split <;> simp

/-- C4: a missing password, username, recipient, subject or body yields
success=false before any connection-open call: the event trace is empty, so
no probe, no session connection and no SMTP command occurs. -/
theorem claim_C4 (cfg : EmailConfig) (env : SMTPConfig) (w : World)
    (h : env.SMTP_PASSWORD = "" ∨ env.SMTP_USERNAME.getD "" = "" ∨
      cfg.toAddr = "" ∨ cfg.subject = "" ∨ cfg.body = "") :
    (sendEmail cfg env w).1.success = false ∧ (sendEmail cfg env w).2 = [] := by
  unfold sendEmail
  by_cases hp : env.SMTP_PASSWORD = ""
  · simp [sendEmailBody, hp]
  by_cases hu : env.SMTP_USERNAME.getD "" = ""
  · simp [sendEmailBody, hp, hu]
  by_cases ht : cfg.toAddr = ""
  · simp [sendEmailBody, hp, hu, ht]
  by_cases hs : cfg.subject = ""
  · simp [sendEmailBody, hp, hu, ht, hs]
  by_cases hb : cfg.body = ""
  · simp [sendEmailBody, hp, hu, ht, hs, hb]
  rcases h with h | h | h | h | h <;> contradiction

/-- Closed instance of the C4 theorem with an empty password. -/
theorem claim_C4_witness :
    (sendEmail cfgA { SMTP_PASSWORD := "" } wA).1.success = false ∧
    (sendEmail cfgA { SMTP_PASSWORD := "" } wA).2 = [] :=
  claim_C4 cfgA { SMTP_PASSWORD := "" } wA (Or.inl (by decide))


/-- The eleven validated steps of the session in order: expected status
code and failure label, as hard-coded at source lines 116-269. -/
def sessionSteps : List (String × String) :=
  [ ("220", "SMTP server not ready"),
    ("250", "EHLO failed"),
    ("220", "STARTTLS failed"),
    ("250", "Secure EHLO failed"),
    ("334", "AUTH LOGIN failed"),
    ("334", "Username authentication failed"),
    ("235", "Password authentication failed"),
    ("250", "MAIL FROM failed"),
    ("250", "RCPT TO failed"),
    ("354", "DATA command failed"),
    ("250", "Email sending failed") ]


theorem string_append_eq_empty_iff (a b : String) :
    (a ++ b = "") ↔ (a = "" ∧ b = "") := by
  constructor
  · intro h
    have hd := congrArg String.data h
    rw [String.data_append] at hd
    rcases List.append_eq_nil.mp hd with ⟨h1, h2⟩
    exact ⟨String.ext h1, String.ext h2⟩
  · rintro ⟨rfl, rfl⟩
    rfl

set_option maxHeartbeats 1000000 in
/-- C2: for every validated step of the session, a reply whose leading three
characters differ from that step's expected code makes `sendEmail` return
success=false with an error string consisting of that step's failure label
and the (trimmed) reply text. -/
theorem claim_C2
    (cfg : EmailConfig) (env : SMTPConfig) (w : World) (u : String)
    (hu : env.SMTP_USERNAME = some u) (hu2 : u ≠ "")
    (hp : env.SMTP_PASSWORD ≠ "")
    (hto : cfg.toAddr ≠ "") (hs : cfg.subject ≠ "") (hb : cfg.body ≠ "")
    (hpe : w.probeErr = none) (hse : w.sessionErr = none) (hte : w.tlsErr = none)
    (k : Nat) (hk : k < 11) (r : String)
    (hbad : jsStartsWith (jsTrim r) (sessionSteps.getD k ("", "")).1 = false)
    (hr : w.replies = (sessionSteps.take k).map Prod.fst ++ [r]) :
    (sendEmail cfg env w).1 =
      { success := false
        message := none
        error := some ((sessionSteps.getD k ("", "")).2 ++ ": " ++ jsTrim r) } := by
  have g220 : jsStartsWith (jsTrim "220") "220" = true := by decide
  have g250 : jsStartsWith (jsTrim "250") "250" = true := by decide
  have g334 : jsStartsWith (jsTrim "334") "334" = true := by decide
  have g235 : jsStartsWith (jsTrim "235") "235" = true := by decide
  have g354 : jsStartsWith (jsTrim "354") "354" = true := by decide
  unfold sendEmail
  interval_cases k <;>
    (simp [sessionSteps] at hbad hr;
     simp [sendEmailBody, securePhase, sessionSteps, SMTP_READY, SMTP_OK,
       SMTP_AUTH_SUCCESS, SMTP_START_INPUT, SMTP_AUTH_CONTINUE,
       string_append_eq_empty_iff,
       hu, hu2, hp, hto, hs, hb, hpe, hse, hte, hr, hbad,
       g220, g250, g334, g235, g354])

/-- The events `sendEmail cfgA envA _` has produced when step `k` is the
first to receive an unacceptable reply `r` (earlier steps answered with
exactly their expected codes). -/
def failTraceA (k : Nat) (r : String) (now : Nat) (dateStr : String) : List Event :=
  [ Event.connectOpen "mail.example.com" (some 2525), Event.closeProbe,
    Event.connectOpen "mail.example.com" (some 2525) ] ++
  match k with
  | 0 => [Event.plainRead r]
  | 1 => [Event.plainRead "220", Event.plainWrite "EHLO mail.example.com\r\n",
      Event.plainRead r]
  | 2 => [Event.plainRead "220", Event.plainWrite "EHLO mail.example.com\r\n",
      Event.plainRead "250", Event.plainWrite "STARTTLS\r\n", Event.plainRead r]
  | n + 3 =>
    [Event.plainRead "220", Event.plainWrite "EHLO mail.example.com\r\n",
     Event.plainRead "250", Event.plainWrite "STARTTLS\r\n",
     Event.plainRead "220", Event.tlsStart,
     Event.secureWrite "EHLO mail.example.com\r\n"] ++
    match n with
    | 0 => [Event.secureRead r]
    | 1 => [Event.secureRead "250", Event.secureWrite "AUTH LOGIN\r\n",
        Event.secureRead r]
    | 2 => [Event.secureRead "250", Event.secureWrite "AUTH LOGIN\r\n",
        Event.secureRead "334", Event.secureWrite (btoa "alice@example.com" ++ "\r\n"),
        Event.secureRead r]
    | 3 => [Event.secureRead "250", Event.secureWrite "AUTH LOGIN\r\n",
        Event.secureRead "334", Event.secureWrite (btoa "alice@example.com" ++ "\r\n"),
        Event.secureRead "334", Event.secureWrite (btoa "hunter2" ++ "\r\n"),
        Event.secureRead r]
    | 4 => [Event.secureRead "250", Event.secureWrite "AUTH LOGIN\r\n",
        Event.secureRead "334", Event.secureWrite (btoa "alice@example.com" ++ "\r\n"),
        Event.secureRead "334", Event.secureWrite (btoa "hunter2" ++ "\r\n"),
        Event.secureRead "235", Event.secureWrite "MAIL FROM:<alice@example.com>\r\n",
        Event.secureRead r]
    | 5 => [Event.secureRead "250", Event.secureWrite "AUTH LOGIN\r\n",
        Event.secureRead "334", Event.secureWrite (btoa "alice@example.com" ++ "\r\n"),
        Event.secureRead "334", Event.secureWrite (btoa "hunter2" ++ "\r\n"),
        Event.secureRead "235", Event.secureWrite "MAIL FROM:<alice@example.com>\r\n",
        Event.secureRead "250", Event.secureWrite "RCPT TO:<a@b.com>\r\n",
        Event.secureRead r]
    | 6 => [Event.secureRead "250", Event.secureWrite "AUTH LOGIN\r\n",
        Event.secureRead "334", Event.secureWrite (btoa "alice@example.com" ++ "\r\n"),
        Event.secureRead "334", Event.secureWrite (btoa "hunter2" ++ "\r\n"),
        Event.secureRead "235", Event.secureWrite "MAIL FROM:<alice@example.com>\r\n",
        Event.secureRead "250", Event.secureWrite "RCPT TO:<a@b.com>\r\n",
        Event.secureRead "250", Event.secureWrite "DATA\r\n",
        Event.secureRead r]
    | _ => [Event.secureRead "250", Event.secureWrite "AUTH LOGIN\r\n",
        Event.secureRead "334", Event.secureWrite (btoa "alice@example.com" ++ "\r\n"),
        Event.secureRead "334", Event.secureWrite (btoa "hunter2" ++ "\r\n"),
        Event.secureRead "235", Event.secureWrite "MAIL FROM:<alice@example.com>\r\n",
        Event.secureRead "250", Event.secureWrite "RCPT TO:<a@b.com>\r\n",
        Event.secureRead "250", Event.secureWrite "DATA\r\n",
        Event.secureRead "354",
        Event.secureWrite (composeMessage "Notification" "alice@example.com" "a@b.com"
          "S" dateStr now "mail.example.com" false "B" ++ "\r\n"),
        Event.secureRead r]

set_option maxHeartbeats 1600000 in
/-- C3: the session is one-directional.  In every run, once the TLS upgrade
begins no command is written to and no reply is read from the plaintext
transport.  On an all-accepting relay the trace is exactly greeting-read,
EHLO, STARTTLS, TLS upgrade, EHLO, AUTH LOGIN, base64 username, base64
password, MAIL FROM, RCPT TO, DATA, payload, QUIT and teardown, in that
order, each gate checked against 220, 250, 220, 250, 334, 334, 235, 250,
250, 354, 250 with QUIT unchecked.  A failed gate ends the trace at
the offending reply with no further SMTP command issued. -/
theorem claim_C3 :
    (∀ (cfg : EmailConfig) (env : SMTPConfig) (w : World),
        noPlainAfterTls (sendEmail cfg env w).2 = true) ∧
    (∀ (w : World) (r1 r2 r3 r4 r5 r6 r7 r8 r9 r10 r11 r12 : String),
      w.probeErr = none → w.sessionErr = none → w.tlsErr = none →
      w.replies = [r1, r2, r3, r4, r5, r6, r7, r8, r9, r10, r11, r12] →
      jsStartsWith (jsTrim r1) "220" = true →
      jsStartsWith (jsTrim r2) "250" = true →
      jsStartsWith (jsTrim r3) "220" = true →
      jsStartsWith (jsTrim r4) "250" = true →
      jsStartsWith (jsTrim r5) "334" = true →
      jsStartsWith (jsTrim r6) "334" = true →
      jsStartsWith (jsTrim r7) "235" = true →
      jsStartsWith (jsTrim r8) "250" = true →
      jsStartsWith (jsTrim r9) "250" = true →
      jsStartsWith (jsTrim r10) "354" = true →
      jsStartsWith (jsTrim r11) "250" = true →
      (sendEmail cfgA envA w).2 =
        [ Event.connectOpen "mail.example.com" (some 2525), Event.closeProbe,
          Event.connectOpen "mail.example.com" (some 2525),
          Event.plainRead r1, Event.plainWrite "EHLO mail.example.com\r\n",
          Event.plainRead r2, Event.plainWrite "STARTTLS\r\n",
          Event.plainRead r3, Event.tlsStart,
          Event.secureWrite "EHLO mail.example.com\r\n", Event.secureRead r4,
          Event.secureWrite "AUTH LOGIN\r\n", Event.secureRead r5,
          Event.secureWrite (btoa "alice@example.com" ++ "\r\n"), Event.secureRead r6,
          Event.secureWrite (btoa "hunter2" ++ "\r\n"), Event.secureRead r7,
          Event.secureWrite "MAIL FROM:<alice@example.com>\r\n", Event.secureRead r8,
          Event.secureWrite "RCPT TO:<a@b.com>\r\n", Event.secureRead r9,
          Event.secureWrite "DATA\r\n", Event.secureRead r10,
          Event.secureWrite (composeMessage "Notification" "alice@example.com" "a@b.com"
            "S" w.dateStr w.now "mail.example.com" false "B" ++ "\r\n"),
          Event.secureRead r11,
          Event.secureWrite "QUIT\r\n", Event.secureRead r12,
          Event.secureWriterClose, Event.secureReaderCancel, Event.secureClose ]) ∧
    (∀ (w : World) (k : Nat), k < 11 → ∀ r : String,
      jsStartsWith (jsTrim r) (sessionSteps.getD k ("", "")).1 = false →
      w.probeErr = none → w.sessionErr = none → w.tlsErr = none →
      w.replies = (sessionSteps.take k).map Prod.fst ++ [r] →
      (sendEmail cfgA envA w).2 = failTraceA k r w.now w.dateStr) := by
  refine ⟨noPlain_all, ?_, ?_⟩
  · intro w r1 r2 r3 r4 r5 r6 r7 r8 r9 r10 r11 r12 hpe hse hte hr
      h1 h2 h3 h4 h5 h6 h7 h8 h9 h10 h11
    have hport : parseIntJS "2525" = some 2525 := by decide
    unfold sendEmail
    simp [sendEmailBody, securePhase, cfgA, envA, hpe, hse, hte, hr, hport,
      h1, h2, h3, h4, h5, h6, h7, h8, h9, h10, h11, SMTP_READY, SMTP_OK,
      SMTP_AUTH_SUCCESS, SMTP_START_INPUT, SMTP_AUTH_CONTINUE, strOr]
  · intro w k hk r hbad hpe hse hte hr
    have g220 : jsStartsWith (jsTrim "220") "220" = true := by decide
    have g250 : jsStartsWith (jsTrim "250") "250" = true := by decide
    have g334 : jsStartsWith (jsTrim "334") "334" = true := by decide
    have g235 : jsStartsWith (jsTrim "235") "235" = true := by decide
    have g354 : jsStartsWith (jsTrim "354") "354" = true := by decide
    have hport : parseIntJS "2525" = some 2525 := by decide
    unfold sendEmail
    interval_cases k <;>
      (simp [sessionSteps] at hbad hr;
       simp [sendEmailBody, securePhase, failTraceA, cfgA, envA, SMTP_READY, SMTP_OK,
         SMTP_AUTH_SUCCESS, SMTP_START_INPUT, SMTP_AUTH_CONTINUE, strOr, hport,
         hpe, hse, hte, hr, hbad, g220, g250, g334, g235, g354])


/-- C5: the DATA payload sent as one command is the composed message, and
the composed message plus CRLF equals the CRLF-joined headers, a blank
line, the body verbatim (no dot escaping) and a line consisting solely of
a dot, so the wire bytes terminate with CRLF, dot, CRLF. -/
theorem claim_C5
    (cfg : EmailConfig) (env : SMTPConfig) (w : World) (u : String)
    (hu : env.SMTP_USERNAME = some u) (hu2 : u ≠ "")
    (hp : env.SMTP_PASSWORD ≠ "")
    (hto : cfg.toAddr ≠ "") (hs : cfg.subject ≠ "") (hb : cfg.body ≠ "")
    (hpe : w.probeErr = none) (hse : w.sessionErr = none) (hte : w.tlsErr = none)
    (r1 r2 r3 r4 r5 r6 r7 r8 r9 r10 r11 r12 : String)
    (hr : w.replies = [r1, r2, r3, r4, r5, r6, r7, r8, r9, r10, r11, r12])
    (h1 : jsStartsWith (jsTrim r1) "220" = true)
    (h2 : jsStartsWith (jsTrim r2) "250" = true)
    (h3 : jsStartsWith (jsTrim r3) "220" = true)
    (h4 : jsStartsWith (jsTrim r4) "250" = true)
    (h5 : jsStartsWith (jsTrim r5) "334" = true)
    (h6 : jsStartsWith (jsTrim r6) "334" = true)
    (h7 : jsStartsWith (jsTrim r7) "235" = true)
    (h8 : jsStartsWith (jsTrim r8) "250" = true)
    (h9 : jsStartsWith (jsTrim r9) "250" = true)
    (h10 : jsStartsWith (jsTrim r10) "354" = true)
    (h11 : jsStartsWith (jsTrim r11) "250" = true) :
    Event.secureWrite (composeMessage (strOr cfg.fromName "Notification")
        (strOr cfg.fromEmail u) cfg.toAddr cfg.subject w.dateStr w.now
        (strOr env.SMTP_HOST "smtp.office365.com") (cfg.isHtml.getD false)
        cfg.body ++ "\r\n") ∈ (sendEmail cfg env w).2 ∧
    (∀ (FN FE TO SUBJ DS : String) (now : Nat) (HOST : String) (HTML : Bool)
        (B : String),
      composeMessage FN FE TO SUBJ DS now HOST HTML B ++ "\r\n" =
        String.intercalate "\r\n"
          (composeHeaders FN FE TO SUBJ DS now HOST HTML) ++
        "\r\n" ++ "\r\n" ++ B ++ "\r\n" ++ "." ++ "\r\n") := by
  constructor
  · unfold sendEmail
    simp [sendEmailBody, securePhase, hu, hu2, hp, hto, hs, hb, hpe, hse, hte, hr,
      h1, h2, h3, h4, h5, h6, h7, h8, h9, h10, h11, SMTP_READY, SMTP_OK,
      SMTP_AUTH_SUCCESS, SMTP_START_INPUT, SMTP_AUTH_CONTINUE]
  · intro FN FE TO SUBJ DS now HOST HTML B
    cases HTML <;>
      simp [composeMessage, composeHeaders, String.intercalate, String.intercalate.go]

/-- C7: teardown failures are swallowed: the three failure flags never
change the result or the trace.  On the success path QUIT is sent, its
reply is read but validated against no code, and then writer close,
reader cancel and connection close are attempted in that order. -/
theorem claim_C7 :
    (∀ (cfg : EmailConfig) (env : SMTPConfig) (w : World) (b1 b2 b3 : Bool),
      sendEmail cfg env
          { w with
            writerCloseFails := b1
            readerCancelFails := b2
            socketCloseFails := b3 } =
        sendEmail cfg env w) ∧
    (∀ (w : World) (r12 : String),
      w.probeErr = none → w.sessionErr = none → w.tlsErr = none →
      w.replies = ["220", "250", "220", "250", "334", "334", "235", "250",
        "250", "354", "250", r12] →
      (sendEmail cfgA envA w).1 =
        { success := true
          message := some "Email sent successfully to a@b.com"
          error := none } ∧
      ∃ pre : List Event, (sendEmail cfgA envA w).2 =
        pre ++ [Event.secureWrite "QUIT\r\n", Event.secureRead r12,
          Event.secureWriterClose, Event.secureReaderCancel, Event.secureClose]) := by
  constructor
  · intro cfg env w b1 b2 b3
    rfl
  · intro w r12 hpe hse hte hr
    have g220 : jsStartsWith (jsTrim "220") "220" = true := by decide
    have g250 : jsStartsWith (jsTrim "250") "250" = true := by decide
    have g334 : jsStartsWith (jsTrim "334") "334" = true := by decide
    have g235 : jsStartsWith (jsTrim "235") "235" = true := by decide
    have g354 : jsStartsWith (jsTrim "354") "354" = true := by decide
    have hport : parseIntJS "2525" = some 2525 := by decide
    have htr : (sendEmail cfgA envA w).2 =
        [ Event.connectOpen "mail.example.com" (some 2525), Event.closeProbe,
          Event.connectOpen "mail.example.com" (some 2525),
          Event.plainRead "220", Event.plainWrite "EHLO mail.example.com\r\n",
          Event.plainRead "250", Event.plainWrite "STARTTLS\r\n",
          Event.plainRead "220", Event.tlsStart,
          Event.secureWrite "EHLO mail.example.com\r\n", Event.secureRead "250",
          Event.secureWrite "AUTH LOGIN\r\n", Event.secureRead "334",
          Event.secureWrite (btoa "alice@example.com" ++ "\r\n"), Event.secureRead "334",
          Event.secureWrite (btoa "hunter2" ++ "\r\n"), Event.secureRead "235",
          Event.secureWrite "MAIL FROM:<alice@example.com>\r\n", Event.secureRead "250",
          Event.secureWrite "RCPT TO:<a@b.com>\r\n", Event.secureRead "250",
          Event.secureWrite "DATA\r\n", Event.secureRead "354",
          Event.secureWrite (composeMessage "Notification" "alice@example.com" "a@b.com"
            "S" w.dateStr w.now "mail.example.com" false "B" ++ "\r\n"),
          Event.secureRead "250",
          Event.secureWrite "QUIT\r\n", Event.secureRead r12,
          Event.secureWriterClose, Event.secureReaderCancel, Event.secureClose ] := by
      unfold sendEmail
      simp [sendEmailBody, securePhase, cfgA, envA, hpe, hse, hte, hr, hport, strOr,
        g220, g250, g334, g235, g354, SMTP_READY, SMTP_OK,
        SMTP_AUTH_SUCCESS, SMTP_START_INPUT, SMTP_AUTH_CONTINUE]
    refine ⟨?_, (sendEmail cfgA envA w).2.take 25, ?_⟩
    · unfold sendEmail
      simp [sendEmailBody, securePhase, cfgA, envA, hpe, hse, hte, hr, hport, strOr,
        g220, g250, g334, g235, g354, SMTP_READY, SMTP_OK,
        SMTP_AUTH_SUCCESS, SMTP_START_INPUT, SMTP_AUTH_CONTINUE]
    · rw [htr]
      rfl


set_option maxHeartbeats 1000000 in
/-- C8: with a fully resolved configuration (host, port, username,
password, sender name and address all supplied and non-empty), the wire
carries exactly the supplied values: the connect calls use the given host
and port, EHLO names the host, AUTH sends base64 of the given username
and password, MAIL FROM the given sender address, RCPT TO the given
recipient, and the payload is composed from the given sender identity —
the core adds no defaults. -/
theorem claim_C8
    (cfg : EmailConfig) (env : SMTPConfig) (w : World)
    (h p : String) (n : Nat) (u fe fn : String)
    (hh : env.SMTP_HOST = some h) (hh2 : h ≠ "")
    (hpo : env.SMTP_PORT = some p) (hpo2 : p ≠ "") (hpn : parseIntJS p = some n)
    (hu : env.SMTP_USERNAME = some u) (hu2 : u ≠ "")
    (hpw : env.SMTP_PASSWORD ≠ "")
    (hfe : cfg.fromEmail = some fe) (hfe2 : fe ≠ "")
    (hfn : cfg.fromName = some fn) (hfn2 : fn ≠ "")
    (hto : cfg.toAddr ≠ "") (hs : cfg.subject ≠ "") (hb : cfg.body ≠ "")
    (hpe : w.probeErr = none) (hse : w.sessionErr = none) (hte : w.tlsErr = none)
    (r1 r2 r3 r4 r5 r6 r7 r8 r9 r10 r11 r12 : String)
    (hr : w.replies = [r1, r2, r3, r4, r5, r6, r7, r8, r9, r10, r11, r12])
    (h1 : jsStartsWith (jsTrim r1) "220" = true)
    (h2 : jsStartsWith (jsTrim r2) "250" = true)
    (h3 : jsStartsWith (jsTrim r3) "220" = true)
    (h4 : jsStartsWith (jsTrim r4) "250" = true)
    (h5 : jsStartsWith (jsTrim r5) "334" = true)
    (h6 : jsStartsWith (jsTrim r6) "334" = true)
    (h7 : jsStartsWith (jsTrim r7) "235" = true)
    (h8 : jsStartsWith (jsTrim r8) "250" = true)
    (h9 : jsStartsWith (jsTrim r9) "250" = true)
    (h10 : jsStartsWith (jsTrim r10) "354" = true)
    (h11 : jsStartsWith (jsTrim r11) "250" = true) :
    (sendEmail cfg env w).2 =
      [ Event.connectOpen h (some n), Event.closeProbe,
        Event.connectOpen h (some n),
        Event.plainRead r1, Event.plainWrite ("EHLO " ++ h ++ "\r\n"),
        Event.plainRead r2, Event.plainWrite "STARTTLS\r\n",
        Event.plainRead r3, Event.tlsStart,
        Event.secureWrite ("EHLO " ++ h ++ "\r\n"), Event.secureRead r4,
        Event.secureWrite "AUTH LOGIN\r\n", Event.secureRead r5,
        Event.secureWrite (btoa u ++ "\r\n"), Event.secureRead r6,
        Event.secureWrite (btoa env.SMTP_PASSWORD ++ "\r\n"), Event.secureRead r7,
        Event.secureWrite ("MAIL FROM:<" ++ fe ++ ">" ++ "\r\n"), Event.secureRead r8,
        Event.secureWrite ("RCPT TO:<" ++ cfg.toAddr ++ ">" ++ "\r\n"), Event.secureRead r9,
        Event.secureWrite "DATA\r\n", Event.secureRead r10,
        Event.secureWrite (composeMessage fn fe cfg.toAddr cfg.subject
          w.dateStr w.now h (cfg.isHtml.getD false) cfg.body ++ "\r\n"),
        Event.secureRead r11,
        Event.secureWrite "QUIT\r\n", Event.secureRead r12,
        Event.secureWriterClose, Event.secureReaderCancel, Event.secureClose ] := by
  unfold sendEmail
  simp [sendEmailBody, securePhase, strOr, hh, hh2, hpo, hpo2, hpn, hu, hu2, hpw,
    hfe, hfe2, hfn, hfn2, hto, hs, hb, hpe, hse, hte, hr,
    h1, h2, h3, h4, h5, h6, h7, h8, h9, h10, h11, SMTP_READY, SMTP_OK,
    SMTP_AUTH_SUCCESS, SMTP_START_INPUT, SMTP_AUTH_CONTINUE]


/-- The decimal digit characters of `n`, most significant first. -/
def digitsChars (n : Nat) : List Char :=
  if _hlt : n < 10 then [Nat.digitChar n]
  else digitsChars (n / 10) ++ [Nat.digitChar (n % 10)]
decreasing_by
  exact Nat.div_lt_self (by omega) (by omega)

theorem toDigitsCore_eq_digitsChars (fuel : Nat) :
    ∀ (n : Nat) (ds : List Char), n < 10 ^ (fuel + 1) →
      Nat.toDigitsCore 10 (fuel + 1) n ds = digitsChars n ++ ds := by
  induction fuel with
  | zero =>
      intro n ds hn
      have hn' : n < 10 := by simpa using hn
      rw [Nat.toDigitsCore, digitsChars]
      simp [Nat.div_eq_of_lt hn', Nat.mod_eq_of_lt hn', hn']
  | succ f ih =>
      intro n ds hn
      rw [Nat.toDigitsCore]
      by_cases h10 : n < 10
      · simp only [Nat.div_eq_of_lt h10, if_true]
        rw [digitsChars]
        simp [Nat.mod_eq_of_lt h10, h10]
      · have hdiv0 : n / 10 ≠ 0 := by
          intro hc
          exact h10 (by omega)
        simp only [hdiv0, if_false]
        have hlt : n / 10 < 10 ^ (f + 1) := by
          rw [Nat.div_lt_iff_lt_mul (by omega)]
          calc n < 10 ^ (f + 1 + 1) := hn
          _ = 10 ^ (f + 1) * 10 := by ring
        rw [ih (n / 10) _ hlt]
        conv_rhs => rw [digitsChars]
        simp [h10]
  
theorem toDigits_eq_digitsChars (n : Nat) :
    Nat.toDigits 10 n = digitsChars n := by
  have h : n < 10 ^ (n + 1) := by
    calc n < 10 ^ n := Nat.lt_pow_self (by omega) n
    _ ≤ 10 ^ (n + 1) := Nat.pow_le_pow_right (by omega) (by omega)
  rw [Nat.toDigits, toDigitsCore_eq_digitsChars n n [] h, List.append_nil]

/-- Decode a digit string back to its value. -/
def decodeDigits (l : List Char) : Nat :=
  l.foldl (fun a c => 10 * a + (c.toNat - 48)) 0

theorem digitChar_decode (n : Nat) (h : n < 10) :
    (Nat.digitChar n).toNat - 48 = n := by
  interval_cases n <;> decide

theorem foldl_digitsChars (n : Nat) :
    ∀ a : Nat, (digitsChars n).foldl (fun a c => 10 * a + (c.toNat - 48)) a =
      a * 10 ^ (digitsChars n).length + n := by
  induction n using Nat.strong_induction_on with
  | _ n ih =>
    intro a
    by_cases h10 : n < 10
    · rw [digitsChars]
      simp [h10, digitChar_decode n h10]
      ring
    · rw [digitsChars]
      simp only [h10, dif_neg, not_false_iff]
      rw [List.foldl_append]
      rw [ih (n / 10) (Nat.div_lt_self (by omega) (by omega)) a]
      simp only [List.foldl_cons, List.foldl_nil, List.length_append,
        List.length_cons, List.length_nil]
      rw [digitChar_decode (n % 10) (Nat.mod_lt _ (by omega))]
      have : 10 * (a * 10 ^ (digitsChars (n / 10)).length + n / 10) + n % 10 =
          a * 10 ^ ((digitsChars (n / 10)).length + 1) + (10 * (n / 10) + n % 10) := by
        ring
      rw [this, Nat.div_add_mod]

theorem decodeDigits_digitsChars (n : Nat) : decodeDigits (digitsChars n) = n := by
  unfold decodeDigits
  rw [foldl_digitsChars n 0]
  simp

theorem natRepr_injective : Function.Injective Nat.repr := by
  intro a b hab
  unfold Nat.repr at hab
  rw [toDigits_eq_digitsChars, toDigits_eq_digitsChars] at hab
  have : digitsChars a = digitsChars b := by
    have := congrArg String.data hab
    simpa [List.asString] using this
  calc a = decodeDigits (digitsChars a) := (decodeDigits_digitsChars a).symm
  _ = decodeDigits (digitsChars b) := by rw [this]
  _ = b := decodeDigits_digitsChars b

theorem natToString_injective (a b : Nat) (h : a ≠ b) : toString a ≠ toString b :=
  fun hc => h (natRepr_injective hc)


def wB : World :=
  { replies := ["220 go", "250 ok", "220 tls", "250 ok2", "334 u", "334 p",
      "235 yes", "250 mf", "250 rt", "354 data", "250 sent", "221 bye"]
    now := 1700000000000
    dateStr := "Thu, 01 Jan 2026 00:00:00 GMT" }

def wBB : World :=
  { replies := ["220 go", "250 ok", "220 tls", "250 ok2", "334 u", "334 p",
      "235 yes", "250 mf", "250 rt", "354 data", "250 SENT", "221 BYE"]
    now := 1700000000000
    dateStr := "Thu, 01 Jan 2026 00:00:00 GMT" }

set_option maxRecDepth 10000 in
/-- C9 counterexample: two different calls (the worlds differ in the relay
text) with identical message content that observe the same `Date.now`
value send byte-identical DATA payloads, hence equal Message-ID values —
the claim as stated (distinct Message-IDs for any two calls) is false. -/
theorem claim_C9_counterexample :
    wB ≠ wBB ∧
    (sendEmail cfgA envA wB).2.get? 23 =
      some (Event.secureWrite (composeMessage "Notification" "alice@example.com"
        "a@b.com" "S" wB.dateStr wB.now "mail.example.com" false "B" ++ "\r\n")) ∧
    (sendEmail cfgA envA wBB).2.get? 23 =
      some (Event.secureWrite (composeMessage "Notification" "alice@example.com"
        "a@b.com" "S" wB.dateStr wB.now "mail.example.com" false "B" ++ "\r\n")) := by
  refine ⟨by decide, by decide, by decide⟩

theorem msgId_distinct (FN FE TO SUBJ DS1 DS2 HOST : String) (HTML : Bool)
    (n1 n2 : Nat) (hne : n1 ≠ n2) :
    (composeHeaders FN FE TO SUBJ DS1 n1 HOST HTML).get? 4 ≠
      (composeHeaders FN FE TO SUBJ DS2 n2 HOST HTML).get? 4 := by
  intro h
  simp [composeHeaders] at h
  have hd := congrArg String.data h
  simp only [String.data_append, List.append_assoc] at hd
  have h1 := List.append_cancel_left hd
  have h2 := List.append_cancel_right h1
  exact hne (natRepr_injective (String.ext h2))



/-- Canonical-code world: the relay answers every step with exactly its
expected status code. -/
def wC : World :=
  { replies := ["220", "250", "220", "250", "334", "334", "235", "250",
      "250", "354", "250", "221 bye"]
    now := 1700000000001
    dateStr := "Thu, 01 Jan 2026 00:00:01 GMT" }

/-- World whose relay rejects the EHLO step. -/
def wC2 : World :=
  { replies := ["220", "500 error"], now := 0, dateStr := "" }

/-- World whose relay rejects the greeting step. -/
def wC3 : World :=
  { replies := ["999 no"], now := 0, dateStr := "" }

/-- C9 (amended): two calls whose `Date.now` readings differ compose
distinct Message-ID headers; and every call performs its own independent
send attempt: its trace contains its own two connect calls and its own
payload write, with no deduplication. -/
theorem claim_C9 :
    (∀ (FN FE TO SUBJ DS1 DS2 HOST : String) (HTML : Bool) (n1 n2 : Nat),
      n1 ≠ n2 →
      (composeHeaders FN FE TO SUBJ DS1 n1 HOST HTML).get? 4 ≠
        (composeHeaders FN FE TO SUBJ DS2 n2 HOST HTML).get? 4) ∧
    (∀ w : World,
      w.probeErr = none → w.sessionErr = none → w.tlsErr = none →
      w.replies = ["220", "250", "220", "250", "334", "334", "235", "250",
        "250", "354", "250", "221 bye"] →
      Event.secureWrite (composeMessage "Notification" "alice@example.com"
          "a@b.com" "S" w.dateStr w.now "mail.example.com" false "B" ++ "\r\n") ∈
        (sendEmail cfgA envA w).2 ∧
      (sendEmail cfgA envA w).2.count
          (Event.connectOpen "mail.example.com" (some 2525)) = 2) := by
  constructor
  · exact msgId_distinct
  · intro w hpe hse hte hr
    have g220 : jsStartsWith (jsTrim "220") "220" = true := by decide
    have g250 : jsStartsWith (jsTrim "250") "250" = true := by decide
    have g334 : jsStartsWith (jsTrim "334") "334" = true := by decide
    have g235 : jsStartsWith (jsTrim "235") "235" = true := by decide
    have g354 : jsStartsWith (jsTrim "354") "354" = true := by decide
    have hport : parseIntJS "2525" = some 2525 := by decide
    unfold sendEmail
    simp [sendEmailBody, securePhase, cfgA, envA, hpe, hse, hte, hr, hport, strOr,
      g220, g250, g334, g235, g354, SMTP_READY, SMTP_OK,
      SMTP_AUTH_SUCCESS, SMTP_START_INPUT, SMTP_AUTH_CONTINUE, List.count_cons]

/-- Closed instance of the Message-ID part of the C9 theorem. -/
theorem claim_C9_witness :
    (composeHeaders "Notification" "alice@example.com" "a@b.com" "S"
        "Thu, 01 Jan 2026 00:00:00 GMT" 1700000000000 "mail.example.com"
        false).get? 4 ≠
      (composeHeaders "Notification" "alice@example.com" "a@b.com" "S"
        "Thu, 01 Jan 2026 00:00:01 GMT" 1700000000001 "mail.example.com"
        false).get? 4 :=
  claim_C9.1 "Notification" "alice@example.com" "a@b.com" "S"
    "Thu, 01 Jan 2026 00:00:00 GMT" "Thu, 01 Jan 2026 00:00:01 GMT"
    "mail.example.com" false 1700000000000 1700000000001 (by decide)

/-- Closed instance of the C2 theorem: EHLO answered with 500. -/
theorem claim_C2_witness :
    (sendEmail cfgA envA wC2).1 =
      { success := false
        message := none
        error := some ((sessionSteps.getD 1 ("", "")).2 ++ ": " ++
          jsTrim "500 error") } :=
  claim_C2 cfgA envA wC2 "alice@example.com" rfl (by decide) (by decide)
    (by decide) (by decide) (by decide) rfl rfl rfl 1 (by decide) "500 error"
    (by decide) (by decide)

/-- Closed instance of the C3 theorem: a rejected greeting stops the trace. -/
theorem claim_C3_witness :
    (sendEmail cfgA envA wC3).2 = failTraceA 0 "999 no" wC3.now wC3.dateStr :=
  claim_C3.2.2 wC3 0 (by decide) "999 no" (by decide) rfl rfl rfl (by decide)

/-- Closed instance of the C5 theorem at the concrete fixtures. -/
theorem claim_C5_witness :
    Event.secureWrite (composeMessage (strOr cfgA.fromName "Notification")
        (strOr cfgA.fromEmail "alice@example.com") cfgA.toAddr cfgA.subject
        wA.dateStr wA.now (strOr envA.SMTP_HOST "smtp.office365.com")
        (cfgA.isHtml.getD false) cfgA.body ++ "\r\n") ∈
      (sendEmail cfgA envA wA).2 ∧
    (∀ (FN FE TO SUBJ DS : String) (now : Nat) (HOST : String) (HTML : Bool)
        (B : String),
      composeMessage FN FE TO SUBJ DS now HOST HTML B ++ "\r\n" =
        String.intercalate "\r\n"
          (composeHeaders FN FE TO SUBJ DS now HOST HTML) ++
        "\r\n" ++ "\r\n" ++ B ++ "\r\n" ++ "." ++ "\r\n") :=
  claim_C5 cfgA envA wA "alice@example.com" rfl (by decide) (by decide)
    (by decide) (by decide) (by decide) rfl rfl rfl
    "220 go" "250 ok" "220 tls" "250 ok2" "334 u" "334 p" "235 yes" "250 mf"
    "250 rt" "354 data" "250 sent" "221 bye"
    (by decide) (by decide) (by decide) (by decide) (by decide) (by decide)
    (by decide) (by decide) (by decide) (by decide) (by decide) (by decide)

/-- Closed instance of the success-path part of the C7 theorem. -/
theorem claim_C7_witness :
    (sendEmail cfgA envA wC).1 =
      { success := true
        message := some "Email sent successfully to a@b.com"
        error := none } ∧
    ∃ pre : List Event, (sendEmail cfgA envA wC).2 =
      pre ++ [Event.secureWrite "QUIT\r\n", Event.secureRead "221 bye",
        Event.secureWriterClose, Event.secureReaderCancel, Event.secureClose] :=
  claim_C7.2 wC "221 bye" rfl rfl rfl rfl

/-- Fixture message with a caller-supplied sender identity. -/
def cfgB : EmailConfig :=
  { toAddr := "a@b.com", subject := "S", body := "B"
    fromEmail := some "bob@x.io", fromName := some "Bob" }

/-- Closed instance of the C8 theorem at the concrete fixtures. -/
theorem claim_C8_witness :
    (sendEmail cfgB envA wA).2 =
      [ Event.connectOpen "mail.example.com" (some 2525), Event.closeProbe,
        Event.connectOpen "mail.example.com" (some 2525),
        Event.plainRead "220 go",
        Event.plainWrite ("EHLO " ++ "mail.example.com" ++ "\r\n"),
        Event.plainRead "250 ok", Event.plainWrite "STARTTLS\r\n",
        Event.plainRead "220 tls", Event.tlsStart,
        Event.secureWrite ("EHLO " ++ "mail.example.com" ++ "\r\n"),
        Event.secureRead "250 ok2",
        Event.secureWrite "AUTH LOGIN\r\n", Event.secureRead "334 u",
        Event.secureWrite (btoa "alice@example.com" ++ "\r\n"),
        Event.secureRead "334 p",
        Event.secureWrite (btoa envA.SMTP_PASSWORD ++ "\r\n"),
        Event.secureRead "235 yes",
        Event.secureWrite ("MAIL FROM:<" ++ "bob@x.io" ++ ">" ++ "\r\n"),
        Event.secureRead "250 mf",
        Event.secureWrite ("RCPT TO:<" ++ cfgB.toAddr ++ ">" ++ "\r\n"),
        Event.secureRead "250 rt",
        Event.secureWrite "DATA\r\n", Event.secureRead "354 data",
        Event.secureWrite (composeMessage "Bob" "bob@x.io" cfgB.toAddr
          cfgB.subject wA.dateStr wA.now "mail.example.com"
          (cfgB.isHtml.getD false) cfgB.body ++ "\r\n"),
        Event.secureRead "250 sent",
        Event.secureWrite "QUIT\r\n", Event.secureRead "221 bye",
        Event.secureWriterClose, Event.secureReaderCancel, Event.secureClose ] :=
  claim_C8 cfgB envA wA "mail.example.com" "2525" 2525 "alice@example.com"
    "bob@x.io" "Bob" rfl (by decide) rfl (by decide) (by decide) rfl (by decide)
    (by decide) rfl (by decide) rfl (by decide) (by decide) (by decide)
    (by decide) rfl rfl rfl
    "220 go" "250 ok" "220 tls" "250 ok2" "334 u" "334 p" "235 yes" "250 mf"
    "250 rt" "354 data" "250 sent" "221 bye"
    (by decide) (by decide) (by decide) (by decide) (by decide) (by decide)
    (by decide) (by decide) (by decide) (by decide) (by decide) (by decide)


/-- Two strings whose first characters differ are different. -/
theorem ne_of_firstChar {c d : Char} (a b : String)
    (ha : a.data.head? = some c) (hb : b.data.head? = some d) (hcd : c ≠ d) :
    a ≠ b := by
  intro h
  apply hcd
  rw [h] at ha
  rw [ha] at hb
  exact Option.some_injective _ hb

/-- C6: the composed header list carries exactly one Content-Type and one
Content-Transfer-Encoding: the html variant is present exactly when
isHtml is true, the plain variant exactly when it is false, and the two
variants together occur exactly once. -/
theorem claim_C6 (FN FE TO SUBJ DS : String) (now : Nat) (HOST : String)
    (HTML : Bool) :
    (("Content-Type: text/html; charset=UTF-8" ∈
        composeHeaders FN FE TO SUBJ DS now HOST HTML) ↔ HTML = true) ∧
    (("Content-Type: text/plain; charset=UTF-8" ∈
        composeHeaders FN FE TO SUBJ DS now HOST HTML) ↔ HTML = false) ∧
    (composeHeaders FN FE TO SUBJ DS now HOST HTML).count
        "Content-Type: text/html; charset=UTF-8" +
      (composeHeaders FN FE TO SUBJ DS now HOST HTML).count
        "Content-Type: text/plain; charset=UTF-8" = 1 ∧
    (composeHeaders FN FE TO SUBJ DS now HOST HTML).count
        "Content-Transfer-Encoding: 8bit" = 1 := by
  have hF1 : ("From: " ++ FN ++ " <" ++ FE ++ ">") ≠ "Content-Type: text/html; charset=UTF-8" :=
    ne_of_firstChar _ _ rfl rfl (by decide)
  have hF2 : ("From: " ++ FN ++ " <" ++ FE ++ ">") ≠ "Content-Type: text/plain; charset=UTF-8" :=
    ne_of_firstChar _ _ rfl rfl (by decide)
  have hF3 : ("From: " ++ FN ++ " <" ++ FE ++ ">") ≠ "Content-Transfer-Encoding: 8bit" :=
    ne_of_firstChar _ _ rfl rfl (by decide)
  have hT1 : ("To: " ++ TO) ≠ "Content-Type: text/html; charset=UTF-8" :=
    ne_of_firstChar _ _ rfl rfl (by decide)
  have hT2 : ("To: " ++ TO) ≠ "Content-Type: text/plain; charset=UTF-8" :=
    ne_of_firstChar _ _ rfl rfl (by decide)
  have hT3 : ("To: " ++ TO) ≠ "Content-Transfer-Encoding: 8bit" :=
    ne_of_firstChar _ _ rfl rfl (by decide)
  have hS1 : ("Subject: " ++ SUBJ) ≠ "Content-Type: text/html; charset=UTF-8" :=
    ne_of_firstChar _ _ rfl rfl (by decide)
  have hS2 : ("Subject: " ++ SUBJ) ≠ "Content-Type: text/plain; charset=UTF-8" :=
    ne_of_firstChar _ _ rfl rfl (by decide)
  have hS3 : ("Subject: " ++ SUBJ) ≠ "Content-Transfer-Encoding: 8bit" :=
    ne_of_firstChar _ _ rfl rfl (by decide)
  have hD1 : ("Date: " ++ DS) ≠ "Content-Type: text/html; charset=UTF-8" :=
    ne_of_firstChar _ _ rfl rfl (by decide)
  have hD2 : ("Date: " ++ DS) ≠ "Content-Type: text/plain; charset=UTF-8" :=
    ne_of_firstChar _ _ rfl rfl (by decide)
  have hD3 : ("Date: " ++ DS) ≠ "Content-Transfer-Encoding: 8bit" :=
    ne_of_firstChar _ _ rfl rfl (by decide)
  have hM1 : ("Message-ID: <" ++ toString now ++ "@" ++ HOST ++ ">") ≠ "Content-Type: text/html; charset=UTF-8" :=
    ne_of_firstChar _ _ rfl rfl (by decide)
  have hM2 : ("Message-ID: <" ++ toString now ++ "@" ++ HOST ++ ">") ≠ "Content-Type: text/plain; charset=UTF-8" :=
    ne_of_firstChar _ _ rfl rfl (by decide)
  have hM3 : ("Message-ID: <" ++ toString now ++ "@" ++ HOST ++ ">") ≠ "Content-Transfer-Encoding: 8bit" :=
    ne_of_firstChar _ _ rfl rfl (by decide)
  cases HTML <;>
    simp [composeHeaders, List.count_cons, hF1, hF2, hF3, hT1, hT2, hT3,
      hS1, hS2, hS3, hD1, hD2, hD3, hM1, hM2, hM3,
      Ne.symm hF1, Ne.symm hF2, Ne.symm hF3, Ne.symm hT1, Ne.symm hT2,
      Ne.symm hT3, Ne.symm hS1, Ne.symm hS2, Ne.symm hS3, Ne.symm hD1,
      Ne.symm hD2, Ne.symm hD3, Ne.symm hM1, Ne.symm hM2, Ne.symm hM3]

end EmailWorker
